import Mathlib

/-!
# Verification of the Bot_Template interaction-dispatch core

A shallow embedding, in Lean 4, of the interaction-dispatch subsystem of the
Bot_Template repository: the permission evaluator (`src/utils/permissionUtil.js`),
the cooldown tracker and slash-command dispatcher (`src/events/interactionCreate.js`),
the pagination controller (`src/utils/messageUtils.js`), the pagination registry
update handler (`src/events/paginationUpdate.js`) and the paginated-message sender
(`src/utils/paginationUtils.js`).

JavaScript idioms are modelled as follows:
* `null` / `undefined` values are `Option`;
* a thrown exception is the `.error` branch of an `Except Unit` computation;
* `Map` / discord.js `Collection` objects are association lists
  (`List (String × β)`) with `Map.get` / `Map.set` semantics
  (`set` overwrites in place, otherwise appends — insertion order is kept);
* JavaScript numbers are `Nat` / `Int` where the program only ever holds
  integers (timestamps, page indices), and `ℚ` for the one fractional value
  the program produces (remaining cooldown seconds).
-/

namespace BotTemplate

/-! ## Association-list model of `Map` / discord.js `Collection` -/

/-- Model of `Map.get`: the value bound to `k`, if any. -/
def lookupEntry (l : List (String × β)) (k : String) : Option β :=
  (l.find? (fun e => e.1 == k)).map (fun e => e.2)

/-- Model of `Map.set`: overwrite the binding for `k` in place, otherwise append it. -/
def setEntry : List (String × β) → String → β → List (String × β)
  | [], k, v => [(k, v)]
  | e :: rest, k, v => if e.1 == k then (k, v) :: rest else e :: setEntry rest k v

/-! ## Configuration (`src/config/index.js`)

Only the fields the dispatch core reads.  `ownerId` comes from the
`DISCORD_OWNER_ID` environment variable; `none` models an unset (or empty,
hence falsy) value, `some` a configured non-empty id. -/

structure DiscordConfig where
  ownerId : Option String

structure AppConfig where
  /-- Model of `parseInt(process.env.COOLDOWN_DEFAULT || '3', 10)`, in seconds. -/
  cooldownDefault : Nat

structure Config where
  discord : DiscordConfig
  app : AppConfig
  /-- Model of `config.isDevelopment` (environment-indicator footer in `createEmbed`). -/
  isDevelopment : Bool
  /-- Model of `config.environment` (`NODE_ENV`); only read when `isDevelopment`. -/
  environment : String

/-! ## Permission evaluator (`src/utils/permissionUtil.js`)

Capability tokens are opaque strings.  `member.permissions` and
`channel.permissionsFor(member)` are the two underlying scope resolutions;
each is modelled as an `Except Unit (List Perm)` — the effective granted set,
or `.error ()` when the platform resolution throws. -/

abbrev Perm := String

/-- A guild member: identity plus the guild-wide permission resolution
(`member.permissions.has(...)`). -/
structure Member where
  id : String
  permissions : Except Unit (List Perm)

/-- A channel: the per-member scoped permission resolution
(`channel.permissionsFor(member)`), keyed by member id. -/
structure Channel where
  permsFor : String → Except Unit (List Perm)

/-- A guild.  `me` folds together `guild.members.me` and the
`guild.members.cache.get(guild.client.user.id)` fallback: the resolved bot
member, if any. -/
structure Guild where
  me : Option Member

/-- Model of `config.discord.ownerId && member.id === config.discord.ownerId`. -/
def isOwner (cfg : Config) (memberId : String) : Bool :=
  match cfg.discord.ownerId with
  | some oid => memberId == oid
  | none => false

/-- Body of `hasPermissions` inside its `try` block.  `member`/`permissions`
are nullable (`!member || !permissions` guard); an empty permission array is
truthy in JavaScript, hence `some []` passes the guard. -/
def hasPermissionsE (cfg : Config) (member : Option Member)
    (permissions : Option (List Perm)) (channel : Option Channel) :
    Except Unit Bool :=
  match member, permissions with
  | none, _ => .ok false
  | _, none => .ok false
  | some m, some perms =>
    if isOwner cfg m.id then .ok true
    else
      match channel with
      | some ch => do
        let granted ← ch.permsFor m.id
        .ok (perms.all (fun p => granted.contains p))
      | none => do
        let granted ← m.permissions
        .ok (perms.all (fun p => granted.contains p))

/-- Model of `hasPermissions({member, permissions, channel})`: the `catch` turns any
exception into `false`. -/
def hasPermissions (cfg : Config) (member : Option Member)
    (permissions : Option (List Perm)) (channel : Option Channel) : Bool :=
  match hasPermissionsE cfg member permissions channel with
  | .ok b => b
  | .error _ => false

/-- Body of `getMissingPermissions` inside its `try` block: every required
permission is checked individually against the effective grant and collected
when absent.  Tokens are strings in this model, so the
`String(permission)` readable-name conversion at the end is the identity
(the numeric-bitflag reverse lookup branch concerns discord.js constants,
not this core). -/
def getMissingPermissionsE (cfg : Config) (member : Option Member)
    (permissions : Option (List Perm)) (channel : Option Channel) :
    Except Unit (List Perm) :=
  match member, permissions with
  | none, _ => .ok []
  | _, none => .ok []
  | some m, some perms =>
    if isOwner cfg m.id then .ok []
    else
      perms.foldlM (fun acc p => do
        let granted ← (match channel with
          | some ch => ch.permsFor m.id
          | none => m.permissions)
        pure (if granted.contains p then acc else acc ++ [p])) []

/-- Model of `getMissingPermissions({member, permissions, channel})`: the `catch`
turns any exception into the empty list. -/
def getMissingPermissions (cfg : Config) (member : Option Member)
    (permissions : Option (List Perm)) (channel : Option Channel) : List Perm :=
  match getMissingPermissionsE cfg member permissions channel with
  | .ok l => l
  | .error _ => []

/-- Model of `botHasPermissions({guild, permissions, channel})`: resolves the bot's own
member object and delegates to `hasPermissions`. -/
def botHasPermissions (cfg : Config) (guild : Option Guild)
    (permissions : Option (List Perm)) (channel : Option Channel) : Bool :=
  match guild, permissions with
  | none, _ => false
  | _, none => false
  | some g, some perms =>
    match g.me with
    | none => false
    | some bot => hasPermissions cfg (some bot) (some perms) channel

/-! ## Concrete fixtures used by witnesses and counterexamples -/

/-- A configuration with owner id `"owner#1"`, default cooldown 3 s. -/
def cfg0 : Config := ⟨⟨some "owner#1"⟩, ⟨3⟩, false, "production"⟩

/-- A member equal to the configured owner, holding no permissions at all. -/
def ownerMember : Member := ⟨"owner#1", .ok []⟩

/-- An ordinary member whose guild-wide permission resolution throws. -/
def brokenMember : Member := ⟨"user#2", .error ()⟩

/-- A channel whose scoped permission resolution always throws. -/
def brokenChannel : Channel := ⟨fun _ => .error ()⟩

/-- A channel that grants nothing to anybody. -/
def emptyChannel : Channel := ⟨fun _ => .ok []⟩

end BotTemplate

namespace BotTemplate

/-! ## C7 — owner super-admin bypass -/

/-- Claim C7: For every member whose identity equals the configured owner
identity (when an owner id is configured), permission evaluation always
succeeds regardless of the required permission set and of the member's actual
channel or guild grants: `hasPermissions` returns `true` and
`getMissingPermissions` returns the empty list. -/
theorem owner_bypass_always_allowed (cfg : Config) (member : Member)
    (perms : List Perm) (channel : Option Channel) (oid : String)
    (hcfg : cfg.discord.ownerId = some oid) (hid : member.id = oid) :
    hasPermissions cfg (some member) (some perms) channel = true ∧
    getMissingPermissions cfg (some member) (some perms) channel = [] := by
  have howner : isOwner cfg member.id = true := by
    simp [isOwner, hcfg, hid]
  constructor
  · simp [hasPermissions, hasPermissionsE, howner]
  · simp [getMissingPermissions, getMissingPermissionsE, howner]

/-- Witness for C7 at a concrete input: the owner with empty grants passes a
check for `ManageGuild` in a channel that grants nothing. -/
theorem owner_bypass_always_allowed_witness :
    hasPermissions cfg0 (some ownerMember) (some ["ManageGuild"]) (some emptyChannel) = true ∧
    getMissingPermissions cfg0 (some ownerMember) (some ["ManageGuild"]) (some emptyChannel) = [] :=
  owner_bypass_always_allowed cfg0 ownerMember ["ManageGuild"] (some emptyChannel)
    "owner#1" rfl rfl

/-! ## C8 — evaluator fails closed on exceptions -/

/-- Claim C8: If the underlying permission resolution throws during evaluation,
the exception is caught and never re-thrown: `hasPermissions` (and
`botHasPermissions`) returns `false` and `getMissingPermissions` returns the
empty list — the evaluator fails closed with no diagnostic detail in its
result.  Stated for both resolution paths (channel-scoped and guild-wide). -/
theorem eval_exception_fails_closed (cfg : Config) (member : Member)
    (perms : List Perm) (ch : Channel)
    (hown : isOwner cfg member.id = false)
    (hch : ch.permsFor member.id = .error ())
    (hmem : member.permissions = .error ()) :
    hasPermissions cfg (some member) (some perms) (some ch) = false ∧
    getMissingPermissions cfg (some member) (some perms) (some ch) = [] ∧
    hasPermissions cfg (some member) (some perms) none = false ∧
    getMissingPermissions cfg (some member) (some perms) none = [] ∧
    (∀ g : Guild, g.me = some member →
      botHasPermissions cfg (some g) (some perms) (some ch) = false) := by
  refine ⟨?_, ?_, ?_, ?_, ?_⟩
  · simp [hasPermissions, hasPermissionsE, hown, hch]
    rfl
  · cases perms with
    | nil =>
      simp [getMissingPermissions, getMissingPermissionsE, hown]
      rfl
    | cons p ps =>
      simp [getMissingPermissions, getMissingPermissionsE, hown, hch, List.foldlM]
      rfl
  · simp [hasPermissions, hasPermissionsE, hown, hmem]
    rfl
  · cases perms with
    | nil =>
      simp [getMissingPermissions, getMissingPermissionsE, hown]
      rfl
    | cons p ps =>
      simp [getMissingPermissions, getMissingPermissionsE, hown, hmem, List.foldlM]
      rfl
  · intro g hg
    simp [botHasPermissions, hg, hasPermissions, hasPermissionsE, hown, hch]
    rfl

/-- Witness for C8 at a concrete input: a non-owner member whose resolutions
throw is denied with an empty missing list, in both scopes, and so is the bot. -/
theorem eval_exception_fails_closed_witness :
    hasPermissions cfg0 (some brokenMember) (some ["SendMessages"]) (some brokenChannel) = false ∧
    getMissingPermissions cfg0 (some brokenMember) (some ["SendMessages"]) (some brokenChannel) = [] ∧
    hasPermissions cfg0 (some brokenMember) (some ["SendMessages"]) none = false ∧
    getMissingPermissions cfg0 (some brokenMember) (some ["SendMessages"]) none = [] ∧
    (∀ g : Guild, g.me = some brokenMember →
      botHasPermissions cfg0 (some g) (some ["SendMessages"]) (some brokenChannel) = false) :=
  eval_exception_fails_closed cfg0 brokenMember ["SendMessages"] brokenChannel
    (by decide) rfl rfl

end BotTemplate

namespace BotTemplate

/-! ## Cooldown tracker (`checkCommandCooldown` in `interactionCreate.js`)

`client.cooldowns` is a `Collection` from command name to a per-command
`Collection` from user id to the timestamp (ms) at which the cooldown was
armed.  `TIME.SECOND = 1000`.  The `setTimeout` that deletes an entry
`cooldownAmount` ms later is not part of the synchronous function value; a
stale entry whose deletion has not yet fired simply shows up as input state
(exactly the case the clock check covers). -/

/-- Per-command map: user id → timestamp (ms) at which the cooldown was armed. -/
abbrev Timestamps := List (String × Nat)

/-- Model of `client.cooldowns`: command name → per-command timestamp map. -/
abbrev Cooldowns := List (String × Timestamps)

/-- A command descriptor, as read by the dispatcher: `data.name`, the optional
per-command cooldown (seconds), the two required-permission sets, and an
abstract model of the handler body (`true` iff `execute` resolves without
throwing). -/
structure Command where
  name : String
  cooldown : Option Nat
  requiredPermissions : List Perm
  botRequiredPermissions : List Perm
  handlerOk : Bool

/-- Model of `checkCommandCooldown(client, command, userId)` at clock reading `now`
(ms): returns the remaining cooldown in (fractional) seconds, or `none` when
not on cooldown, together with the updated `client.cooldowns` state. -/
def checkCommandCooldown (cfg : Config) (cooldowns : Cooldowns)
    (command : Command) (userId : String) (now : Nat) : Option ℚ × Cooldowns :=
  let cooldowns1 :=
    if (lookupEntry cooldowns command.name).isNone
    then setEntry cooldowns command.name [] else cooldowns
  let timestamps := (lookupEntry cooldowns1 command.name).getD []
  let cooldownAmount := (command.cooldown.getD cfg.app.cooldownDefault) * 1000
  match lookupEntry timestamps userId with
  | some ts =>
    let expirationTime := ts + cooldownAmount
    if now < expirationTime then
      (some (((expirationTime : ℚ) - (now : ℚ)) / 1000), cooldowns1)
    else
      (none, setEntry cooldowns1 command.name (setEntry timestamps userId now))
  | none =>
    (none, setEntry cooldowns1 command.name (setEntry timestamps userId now))

/-! ## C2 — cooldown check semantics -/

/-- Claim C2: For every (command name, actor id) pair: if `checkCommandCooldown`
finds an existing entry whose expiry (stored timestamp plus the command's
cooldown duration) is strictly after `now`, it returns the remaining time
(expiry − now) in fractional seconds and leaves the stored state untouched, so
the original expiry is preserved and repeated attempts during cooldown do not
extend it; if an entry exists but `now` is at or past its expiry (the
scheduled deletion has not yet fired), it is treated as no entry: the
timestamp is re-armed to `now` and `null` is returned. -/
theorem cooldown_check_preserves_or_rearms (cfg : Config) (cooldowns : Cooldowns)
    (command : Command) (userId : String) (now ts : Nat) (timestamps : Timestamps)
    (hcmd : lookupEntry cooldowns command.name = some timestamps)
    (huser : lookupEntry timestamps userId = some ts) :
    (now < ts + (command.cooldown.getD cfg.app.cooldownDefault) * 1000 →
      checkCommandCooldown cfg cooldowns command userId now =
        (some ((((ts + (command.cooldown.getD cfg.app.cooldownDefault) * 1000 : Nat) : ℚ)
                  - (now : ℚ)) / 1000),
         cooldowns)) ∧
    (ts + (command.cooldown.getD cfg.app.cooldownDefault) * 1000 ≤ now →
      checkCommandCooldown cfg cooldowns command userId now =
        (none, setEntry cooldowns command.name (setEntry timestamps userId now))) := by
  constructor
  · intro hlt
    simp [checkCommandCooldown, hcmd, huser, hlt]
  · intro hge
    have hnlt : ¬ now < ts + (command.cooldown.getD cfg.app.cooldownDefault) * 1000 :=
      Nat.not_lt.mpr hge
    simp [checkCommandCooldown, hcmd, huser, hnlt]

/-- Witness for C2 at a concrete input: command `ping` (cooldown 5 s) armed at
t = 1000 ms.  At t = 3500 ms the check returns 2.5 s remaining and leaves the
state untouched; at t = 6000 ms it re-arms to 6000 and returns `null`. -/
theorem cooldown_check_preserves_or_rearms_witness :
    (checkCommandCooldown cfg0 [("ping", [("u1", 1000)])]
        ⟨"ping", some 5, [], [], true⟩ "u1" 3500 =
      (some ((5 : ℚ) / 2), [("ping", [("u1", 1000)])])) ∧
    (checkCommandCooldown cfg0 [("ping", [("u1", 1000)])]
        ⟨"ping", some 5, [], [], true⟩ "u1" 6000 =
      (none, [("ping", [("u1", 6000)])])) := by
  have h := cooldown_check_preserves_or_rearms cfg0 [("ping", [("u1", 1000)])]
    ⟨"ping", some 5, [], [], true⟩ "u1" 3500 1000 [("u1", 1000)] (by decide) (by decide)
  have h' := cooldown_check_preserves_or_rearms cfg0 [("ping", [("u1", 1000)])]
    ⟨"ping", some 5, [], [], true⟩ "u1" 6000 1000 [("u1", 1000)] (by decide) (by decide)
  refine ⟨?_, ?_⟩
  · have := h.1 (by decide)
    rw [this]
    norm_num [setEntry]
  · have := h'.2 (by decide)
    rw [this]
    norm_num [setEntry]

end BotTemplate

namespace BotTemplate

/-! ## Slash-command dispatcher (`handleSlashCommand` in `interactionCreate.js`) -/

/-- The gates of the command-invocation path, in source order. -/
inductive Gate where
  | lookup
  | cooldown
  | userPerms
  | botPerms
  | handler
deriving DecidableEq, Repr

/-- The terminal reply produced by one dispatch. -/
inductive Reply where
  | notFound
  | cooldownWarning (remaining : ℚ)
  | userPermissionError (missing : List Perm)
  | botPermissionError (missing : List Perm)
  | handlerError
  | success
deriving DecidableEq, Repr

/-- A command interaction, as destructured by the handler. -/
structure Interaction where
  commandName : String
  userId : String
  member : Option Member
  guild : Option Guild
  channel : Option Channel

/-- Result of one `handleSlashCommand` run: which gates were evaluated (in
order), the terminal reply, the cooldown state after the run, and whether
`command.execute` was invoked. -/
structure DispatchResult where
  gates : List Gate
  reply : Reply
  cooldowns : Cooldowns
  handlerRan : Bool
deriving DecidableEq, Repr

/-- Model of `checkUserPermissions(interaction, command)`: skipped (vacuously true)
when the command requires nothing or the interaction is outside a guild;
otherwise delegates to `hasPermissions`. -/
def checkUserPermissions (cfg : Config) (i : Interaction) (command : Command) : Bool :=
  if command.requiredPermissions.isEmpty || i.guild.isNone then true
  else hasPermissions cfg i.member (some command.requiredPermissions) i.channel

/-- Model of `checkBotPermissions(interaction, command)`: skipped when the command
requires nothing of the bot or the interaction is outside a guild; otherwise
delegates to `botHasPermissions`. -/
def checkBotPermissions (cfg : Config) (i : Interaction) (command : Command) : Bool :=
  if command.botRequiredPermissions.isEmpty || i.guild.isNone then true
  else botHasPermissions cfg i.guild (some command.botRequiredPermissions) i.channel

/-- Model of `handleSlashCommand(interaction)` over `client.commands` and
`client.cooldowns`, at clock reading `now`.  Each gate appends itself to the
trace when (and only when) control reaches it. -/
def handleSlashCommand (cfg : Config) (commands : List (String × Command))
    (cooldowns : Cooldowns) (i : Interaction) (now : Nat) : DispatchResult :=
  match lookupEntry commands i.commandName with
  | none => ⟨[.lookup], .notFound, cooldowns, false⟩
  | some command =>
    let checked := checkCommandCooldown cfg cooldowns command i.userId now
    match checked.1 with
    | some remaining =>
      ⟨[.lookup, .cooldown], .cooldownWarning remaining, checked.2, false⟩
    | none =>
      if ¬ checkUserPermissions cfg i command then
        ⟨[.lookup, .cooldown, .userPerms],
         .userPermissionError
           (getMissingPermissions cfg i.member (some command.requiredPermissions) i.channel),
         checked.2, false⟩
      else if ¬ checkBotPermissions cfg i command then
        ⟨[.lookup, .cooldown, .userPerms, .botPerms],
         .botPermissionError
           (getMissingPermissions cfg (i.guild.bind Guild.me)
             (some command.botRequiredPermissions) i.channel),
         checked.2, false⟩
      else if command.handlerOk then
        ⟨[.lookup, .cooldown, .userPerms, .botPerms, .handler], .success, checked.2, true⟩
      else
        ⟨[.lookup, .cooldown, .userPerms, .botPerms, .handler], .handlerError, checked.2, true⟩

/-! ## C1 — fixed gate order, terminal failures -/

/-- Claim C1: For every command invocation, the gates run in the fixed order
lookup → cooldown → actor permissions → bot permissions → handler; failure at
any gate produces the corresponding terminal reply and none of the later
gates nor the handler runs.  In particular an actor on cooldown receives the
cooldown warning before any permission check happens, and the handler is never
executed while a cooldown is active. -/
theorem dispatch_gate_order (cfg : Config) (commands : List (String × Command))
    (cooldowns : Cooldowns) (i : Interaction) (now : Nat) :
    (lookupEntry commands i.commandName = none →
      handleSlashCommand cfg commands cooldowns i now =
        ⟨[.lookup], .notFound, cooldowns, false⟩) ∧
    (∀ command remaining, lookupEntry commands i.commandName = some command →
      (checkCommandCooldown cfg cooldowns command i.userId now).1 = some remaining →
      handleSlashCommand cfg commands cooldowns i now =
        ⟨[.lookup, .cooldown], .cooldownWarning remaining,
         (checkCommandCooldown cfg cooldowns command i.userId now).2, false⟩ ∧
      Gate.userPerms ∉ (handleSlashCommand cfg commands cooldowns i now).gates ∧
      Gate.botPerms ∉ (handleSlashCommand cfg commands cooldowns i now).gates ∧
      Gate.handler ∉ (handleSlashCommand cfg commands cooldowns i now).gates) ∧
    (∀ command, lookupEntry commands i.commandName = some command →
      (checkCommandCooldown cfg cooldowns command i.userId now).1 = none →
      checkUserPermissions cfg i command = false →
      handleSlashCommand cfg commands cooldowns i now =
        ⟨[.lookup, .cooldown, .userPerms],
         .userPermissionError
           (getMissingPermissions cfg i.member (some command.requiredPermissions) i.channel),
         (checkCommandCooldown cfg cooldowns command i.userId now).2, false⟩) ∧
    (∀ command, lookupEntry commands i.commandName = some command →
      (checkCommandCooldown cfg cooldowns command i.userId now).1 = none →
      checkUserPermissions cfg i command = true →
      checkBotPermissions cfg i command = false →
      handleSlashCommand cfg commands cooldowns i now =
        ⟨[.lookup, .cooldown, .userPerms, .botPerms],
         .botPermissionError
           (getMissingPermissions cfg (i.guild.bind Guild.me)
             (some command.botRequiredPermissions) i.channel),
         (checkCommandCooldown cfg cooldowns command i.userId now).2, false⟩) ∧
    (∀ command, lookupEntry commands i.commandName = some command →
      (checkCommandCooldown cfg cooldowns command i.userId now).1 = none →
      checkUserPermissions cfg i command = true →
      checkBotPermissions cfg i command = true →
      handleSlashCommand cfg commands cooldowns i now =
        ⟨[.lookup, .cooldown, .userPerms, .botPerms, .handler],
         if command.handlerOk then .success else .handlerError,
         (checkCommandCooldown cfg cooldowns command i.userId now).2, true⟩) := by
  refine ⟨?_, ?_, ?_, ?_, ?_⟩
  · intro hmiss
    simp [handleSlashCommand, hmiss]
  · intro command remaining hcmd hcd
    have hres : handleSlashCommand cfg commands cooldowns i now =
        ⟨[.lookup, .cooldown], .cooldownWarning remaining,
         (checkCommandCooldown cfg cooldowns command i.userId now).2, false⟩ := by
      simp [handleSlashCommand, hcmd, hcd]
    refine ⟨hres, ?_, ?_, ?_⟩ <;> rw [hres] <;> simp
  · intro command hcmd hcd huser
    simp [handleSlashCommand, hcmd, hcd, huser]
  · intro command hcmd hcd huser hbot
    simp [handleSlashCommand, hcmd, hcd, huser, hbot]
  · intro command hcmd hcd huser hbot
    rcases h : command.handlerOk
    · simp [handleSlashCommand, hcmd, hcd, huser, hbot, h]
    · simp [handleSlashCommand, hcmd, hcd, huser, hbot, h]

end BotTemplate

namespace BotTemplate

/-- Fixture: the `ping` command, 5 s cooldown, requiring `Administrator` of
the actor. -/
def pingCommand : Command := ⟨"ping", some 5, ["Administrator"], [], true⟩

/-- Fixture: a registry holding only `ping`. -/
def dispatchCommands0 : List (String × Command) := [("ping", pingCommand)]

/-- Fixture: `u1` armed the `ping` cooldown at t = 1000 ms. -/
def dispatchCooldowns0 : Cooldowns := [("ping", [("u1", 1000)])]

/-- Fixture: `u1` invokes `ping` in a guild, lacking `Administrator` (their
permission resolution even throws) — yet the cooldown reply must win. -/
def interaction0 : Interaction :=
  ⟨"ping", "u1", some brokenMember, some ⟨none⟩, none⟩

/-- Witness for C1 at a concrete input: at t = 3500 ms the actor on cooldown
gets the cooldown warning (2.5 s left), the permission gates never run and the
handler is not executed, although the actor also lacks the required
permission. -/
theorem dispatch_gate_order_witness :
    handleSlashCommand cfg0 dispatchCommands0 dispatchCooldowns0 interaction0 3500 =
      ⟨[.lookup, .cooldown], .cooldownWarning ((5 : ℚ) / 2), dispatchCooldowns0, false⟩ ∧
    Gate.userPerms ∉
      (handleSlashCommand cfg0 dispatchCommands0 dispatchCooldowns0 interaction0 3500).gates := by
  have h := (dispatch_gate_order cfg0 dispatchCommands0 dispatchCooldowns0
      interaction0 3500).2.1 pingCommand ((5 : ℚ) / 2) (by rfl)
      (by norm_num [checkCommandCooldown, lookupEntry, dispatchCooldowns0,
            pingCommand, cfg0, interaction0, List.find?])
  refine ⟨?_, h.2.1⟩
  rw [h.1]
  rfl

end BotTemplate

namespace BotTemplate

/-! ## Rendering primitives (`src/utils/messageUtils.js`, `src/utils/helpers.js`)

The render payloads are modelled structurally: an embed is its data, a button
row is a list of buttons.  JavaScript falsy checks on option strings are
modelled with `Option` (`none` = absent/empty). -/

/-- Model of `truncate(str, length)` from `helpers.js` (`ELLIPSIS_LENGTH = 3`); the
`!str` guard coincides with the length check for the empty string. -/
def truncate (s : String) (len : Nat) : String :=
  if s.length ≤ len then s else (s.take (len - 3)) ++ "..."

/-- discord.js `ButtonStyle`. -/
inductive ButtonStyle where
  | primary
  | secondary
  | success
  | danger
  | link
deriving DecidableEq, Repr

/-- The options record accepted by `createButton`. -/
structure ButtonOptions where
  customId : Option String := none
  label : Option String := none
  emoji : Option String := none
  disabled : Bool := false
  url : Option String := none
  style : Option ButtonStyle := none

/-- A rendered button (the data a `ButtonBuilder` ends up holding). -/
structure PgButton where
  customId : Option String
  label : String
  emoji : Option String
  disabled : Bool
  style : ButtonStyle
  url : Option String
deriving DecidableEq, Repr

/-- Model of `createButton(options)`. -/
def createButton (o : ButtonOptions) : PgButton :=
  { customId := if o.url.isSome then none else some (o.customId.getD "button")
    label := o.label.getD "Button"
    emoji := o.emoji
    disabled := o.disabled
    style := if o.url.isSome then ButtonStyle.link else o.style.getD ButtonStyle.primary
    url := o.url }

/-- A field of a rendered embed (`{name, value}`). -/
structure EmbedField where
  name : String
  value : String
deriving DecidableEq, Repr

/-- A rendered embed (the data an `EmbedBuilder` ends up holding). -/
structure Embed where
  title : Option String
  description : Option String
  color : Nat
  footerText : Option String
  hasTimestamp : Bool
  fields : List EmbedField
deriving DecidableEq, Repr

/-- The options record accepted by `createEmbed`. -/
structure EmbedOptions where
  title : Option String := none
  description : Option String := none
  color : Option Nat := none
  footerText : Option String := none
  timestamp : Bool := true

/-- Constant `COLORS.BOOTSTRAP_DEFAULT` (`constants.js`). -/
def BOOTSTRAP_DEFAULT : Nat := 0x007BFF

/-- Constant `COLORS.PRIMARY` (`constants.js`). -/
def COLORS_PRIMARY : Nat := 0x5865F2

/-- Constant `COLORS.ERROR` (`constants.js`). -/
def COLORS_ERROR : Nat := 0xED4245

/-- Model of `createEmbed(options)`: consistent styling, embed-limit truncation
(`TITLE 256`, `DESCRIPTION 4096`, `FOOTER_TEXT 2048`), default colour, and the
development-mode footer environment indicator. -/
def createEmbed (cfg : Config) (o : EmbedOptions) : Embed :=
  let base : Embed :=
    { title := o.title.map (fun t => truncate t 256)
      description := o.description.map (fun d => truncate d 4096)
      color := o.color.getD BOOTSTRAP_DEFAULT
      footerText := o.footerText.map (fun f => truncate f 2048)
      hasTimestamp := o.timestamp
      fields := [] }
  if cfg.isDevelopment then
    let envText := ("[" ++ cfg.environment ++ "] " ++ (base.footerText.getD "")).trim
    { base with footerText := some (truncate envText 2048) }
  else base

/-! ## Decimal rendering of JavaScript numbers

A JavaScript template literal renders a non-negative integer as its decimal
digit string; that is exactly `Nat.repr`.  `decChars n` is the same digit
list, defined by direct `div`/`mod` recursion so it can be reasoned about;
`Nat.repr` is proved equal to it below. -/

/-- Most-significant-first decimal digits of `n` (`['0']` for 0). -/
def decChars (n : Nat) : List Char :=
  if _h : n < 10 then [Nat.digitChar n]
  else decChars (n / 10) ++ [Nat.digitChar (n % 10)]
termination_by n
decreasing_by
  exact Nat.div_lt_self (by omega) (by omega)

/-- JavaScript number-to-string conversion for the naturals this program
renders (page numbers, item counts). -/
def jsNatToString (n : Nat) : String := Nat.repr n

/-! ## Pagination controller (`createPaginatedEmbed` in `messageUtils.js`) -/

/-- The options record accepted by `createPaginatedEmbed` /
`sendPaginatedMessage`. -/
structure PaginationOptions where
  title : Option String := none
  description : Option String := none
  itemsPerPage : Option Nat := none
  footerText : Option String := none
  color : Option Nat := none
  ephemeral : Bool := false

/-- One rendered page: the `{embeds, components, currentPage}` object
returned by `getPage`. -/
structure PageRender where
  embeds : List Embed
  components : List (List PgButton)
  currentPage : Nat
deriving Repr

/-- The pagination controller: the closure state captured by
`createPaginatedEmbed` (`items`, `formatItemFn`, `options`, the resolved
`itemsPerPage`) plus the derived `pageCount`.  The returned JavaScript object
exposes exactly `getPage` and `pageCount` — it has no `register` property and
holds no current-page state. -/
structure Paginator (α : Type) where
  items : List α
  formatItemFn : α → EmbedField
  options : PaginationOptions
  itemsPerPage : Nat
  pageCount : Nat

/-- Model of `_createPaginationButtons(currentPage, pageCount)`: the five-button
navigation row.  `isLastPage` is the JavaScript number comparison
`currentPage === pageCount - 1`, taken over `Int` (for `pageCount = 0` it
compares against `-1`). -/
def _createPaginationButtons (currentPage pageCount : Nat) : List PgButton :=
  let isFirstPage := currentPage == 0
  let isLastPage := (currentPage : Int) == (pageCount : Int) - 1
  [ createButton { customId := some "first", emoji := some "⏮️",
                   disabled := isFirstPage, style := some ButtonStyle.secondary },
    createButton { customId := some "prev", emoji := some "◀️",
                   disabled := isFirstPage, style := some ButtonStyle.primary },
    createButton { customId := some "page",
                   label := some (jsNatToString (currentPage + 1) ++ "/" ++ jsNatToString pageCount),
                   disabled := true, style := some ButtonStyle.secondary },
    createButton { customId := some "next", emoji := some "▶️",
                   disabled := isLastPage, style := some ButtonStyle.primary },
    createButton { customId := some "last", emoji := some "⏭️",
                   disabled := isLastPage, style := some ButtonStyle.secondary } ]

/-- Model of `options.itemsPerPage || DEFAULT_ITEMS_PER_PAGE` (falsy `0` also falls
back to the default 5). -/
def resolveItemsPerPage (o : Option Nat) : Nat :=
  match o with
  | some k => if k == 0 then 5 else k
  | none => 5

/-- Model of `createPaginatedEmbed(items, formatItemFn, options)`.  With the resolved
`itemsPerPage ≥ 1`, `Math.ceil(items.length / itemsPerPage)` is
`(length + itemsPerPage - 1) / itemsPerPage` in `Nat`. -/
def createPaginatedEmbed (items : List α) (formatItemFn : α → EmbedField)
    (options : PaginationOptions) : Paginator α :=
  let itemsPerPage := resolveItemsPerPage options.itemsPerPage
  { items := items
    formatItemFn := formatItemFn
    options := options
    itemsPerPage := itemsPerPage
    pageCount := (items.length + itemsPerPage - 1) / itemsPerPage }

/-- Model of `getPage(page)`: clamp into `[0, pageCount − 1]` (over `Int`, exactly
`Math.max(0, Math.min(page, pageCount - 1))`), slice
`[startIdx, min(startIdx + itemsPerPage, items.length))`, render the embed,
add one field per formatted item with truthy `name` and `value`, and attach
the navigation row. -/
def Paginator.getPage (cfg : Config) (p : Paginator α) (page : Int) : PageRender :=
  let currentPage : Nat := (max 0 (min page ((p.pageCount : Int) - 1))).toNat
  let startIdx := currentPage * p.itemsPerPage
  let endIdx := min (startIdx + p.itemsPerPage) p.items.length
  let pageItems := (p.items.drop startIdx).take (endIdx - startIdx)
  let embed := createEmbed cfg
    { title := some (p.options.title.getD "Results")
      description := some (p.options.description.getD
        ("Showing " ++ jsNatToString (startIdx + 1) ++ "-" ++ jsNatToString endIdx
          ++ " of " ++ jsNatToString p.items.length ++ " items"))
      color := some (p.options.color.getD COLORS_PRIMARY)
      footerText := some ((p.options.footerText.getD "Page") ++ " "
        ++ jsNatToString (currentPage + 1) ++ "/" ++ jsNatToString p.pageCount) }
  let fields := pageItems.foldl (fun acc it =>
    let f := p.formatItemFn it
    if f.name != "" && f.value != "" then acc ++ [f] else acc) []
  { embeds := [{ embed with fields := embed.fields ++ fields }]
    components := [_createPaginationButtons currentPage p.pageCount]
    currentPage := currentPage }

/-- One `getPage` call as a state transformer on the controller: the closure
body consists of `const` bindings only and never assigns to the captured
variables (`items`, `formatItemFn`, `options`, `itemsPerPage`, `pageCount`),
so the post-call closure state is the pre-call state. -/
def Paginator.getPageCall (cfg : Config) (p : Paginator α) (page : Int) :
    PageRender × Paginator α :=
  (p.getPage cfg page, p)

end BotTemplate

namespace BotTemplate

/-- The `disabled` flag of the button with the given custom id on the first
control row of a render, if present. -/
def PageRender.buttonDisabled (r : PageRender) (id : String) : Option Bool :=
  ((r.components.headD []).find? (fun b => b.customId == some id)).map PgButton.disabled

theorem getPage_currentPage (cfg : Config) (p : Paginator α) (n : Int) :
    (p.getPage cfg n).currentPage = (max 0 (min n ((p.pageCount : Int) - 1))).toNat := rfl

theorem getPage_components (cfg : Config) (p : Paginator α) (n : Int) :
    (p.getPage cfg n).components =
      [_createPaginationButtons ((p.getPage cfg n).currentPage) p.pageCount] := rfl

/-- Collecting the truthy-formatted items with a fold is filtering the mapped
list. -/
theorem foldl_collect_eq_filter_map (g : γ → EmbedField) : ∀ (l : List γ) (acc : List EmbedField),
    List.foldl (fun acc it =>
        if (g it).name != "" && (g it).value != "" then acc ++ [g it] else acc) acc l
      = acc ++ (l.map g).filter (fun f => f.name != "" && f.value != "")
  | [], acc => by simp
  | it :: l, acc => by
    simp only [List.foldl_cons, List.map_cons, List.filter_cons]
    by_cases h : ((g it).name != "" && (g it).value != "") = true
    · rw [if_pos h, if_pos h, foldl_collect_eq_filter_map g l (acc ++ [g it])]
      simp
    · rw [if_neg h, if_neg h, foldl_collect_eq_filter_map g l acc]

/-- Lemma: `slice(start, min(start + k, length))` is `drop start` then `take k`. -/
theorem slice_take (l : List γ) (s k : Nat) :
    (l.drop s).take (min (s + k) l.length - s) = (l.drop s).take k := by
  rcases le_or_lt s l.length with hle | hlt
  · rw [List.take_eq_take]
    simp only [List.length_drop]
    omega
  · rw [List.drop_eq_nil_of_le (Nat.le_of_lt hlt)]
    simp

/-- The embed fields rendered by `getPage`: the clamped slice, formatted, with
falsy-named fields skipped. -/
theorem getPage_fields (cfg : Config) (p : Paginator α) (n : Int) :
    (p.getPage cfg n).embeds.map Embed.fields =
      [((p.items.drop ((p.getPage cfg n).currentPage * p.itemsPerPage)).take p.itemsPerPage
          |>.map p.formatItemFn).filter (fun f => f.name != "" && f.value != "")] := by
  unfold Paginator.getPage
  simp only [List.map_cons, List.map_nil]
  rw [slice_take, foldl_collect_eq_filter_map]
  simp [createEmbed]
  rcases cfg.isDevelopment <;> simp

/-- The disabled flags of the five navigation buttons, as functions of the
current page and the page count. -/
theorem paginationButtons_disabled (c pc : Nat) :
    ((_createPaginationButtons c pc).find? (fun b => b.customId == some "first")).map
        PgButton.disabled = some (c == 0) ∧
    ((_createPaginationButtons c pc).find? (fun b => b.customId == some "prev")).map
        PgButton.disabled = some (c == 0) ∧
    ((_createPaginationButtons c pc).find? (fun b => b.customId == some "next")).map
        PgButton.disabled = some ((c : Int) == (pc : Int) - 1) ∧
    ((_createPaginationButtons c pc).find? (fun b => b.customId == some "last")).map
        PgButton.disabled = some ((c : Int) == (pc : Int) - 1) := by
  refine ⟨?_, ?_, ?_, ?_⟩ <;> simp [_createPaginationButtons, createButton, List.find?]

end BotTemplate

namespace BotTemplate

/-! ## C3 — page count, clamping and boundary controls -/

/-- Claim C3: For every controller built from `N ≥ 1` items with
`itemsPerPage = k ≥ 1`: `pageCount = ⌈N/k⌉`; for every integer argument `n`
(out-of-range included) `getPage n` clamps into `[0, pageCount − 1]` (negative
arguments land on 0, too-large ones on the last page, in-range ones on
themselves) and renders exactly the item slice starting at
`clamped · k` of length at most `k`; `getPage 0` renders the first and prev
controls disabled, and `getPage (pageCount − 1)` renders the next and last
controls disabled. -/
theorem pagination_controller_spec (cfg : Config) (items : List α)
    (fmt : α → EmbedField) (options : PaginationOptions) (k : Nat)
    (p : Paginator α) (hk : 0 < k) (hipp : options.itemsPerPage = some k)
    (hne : items ≠ []) (hp : p = createPaginatedEmbed items fmt options) :
    p.pageCount = (items.length + k - 1) / k ∧
    (∀ n : Int, (p.getPage cfg n).currentPage < p.pageCount) ∧
    (∀ n : Int, n < 0 → (p.getPage cfg n).currentPage = 0) ∧
    (∀ n : Int, (p.pageCount : Int) ≤ n →
      (p.getPage cfg n).currentPage = p.pageCount - 1) ∧
    (∀ n : Int, 0 ≤ n → n < (p.pageCount : Int) →
      (p.getPage cfg n).currentPage = n.toNat) ∧
    (∀ n : Int, (p.getPage cfg n).embeds.map Embed.fields =
      [(((items.drop ((p.getPage cfg n).currentPage * k)).take k).map fmt).filter
          (fun f => f.name != "" && f.value != "")]) ∧
    (p.getPage cfg 0).buttonDisabled "first" = some true ∧
    (p.getPage cfg 0).buttonDisabled "prev" = some true ∧
    (p.getPage cfg ((p.pageCount : Int) - 1)).buttonDisabled "next" = some true ∧
    (p.getPage cfg ((p.pageCount : Int) - 1)).buttonDisabled "last" = some true := by
  have hk0 : (k == 0) = false := by simp; omega
  have hipk : p.itemsPerPage = k := by
    rw [hp]
    simp [createPaginatedEmbed, resolveItemsPerPage, hipp, hk0]
  have hitems : p.items = items := by rw [hp]; rfl
  have hfmt : p.formatItemFn = fmt := by rw [hp]; rfl
  have hpc : p.pageCount = (items.length + k - 1) / k := by
    rw [hp]
    simp [createPaginatedEmbed, resolveItemsPerPage, hipp, hk0]
  have hlen : 1 ≤ items.length := List.length_pos.mpr hne
  have hpcpos : 1 ≤ p.pageCount := by
    rw [hpc]
    rw [Nat.one_le_div_iff hk]
    omega
  have hcur0 : (p.getPage cfg 0).currentPage = 0 := by
    rw [getPage_currentPage]
    omega
  have hcurlast : (p.getPage cfg ((p.pageCount : Int) - 1)).currentPage = p.pageCount - 1 := by
    rw [getPage_currentPage]
    omega
  refine ⟨hpc, ?_, ?_, ?_, ?_, ?_, ?_, ?_, ?_, ?_⟩
  · intro n
    rw [getPage_currentPage]
    omega
  · intro n hn
    rw [getPage_currentPage]
    omega
  · intro n hn
    rw [getPage_currentPage]
    omega
  · intro n h0 hn
    rw [getPage_currentPage]
    omega
  · intro n
    rw [getPage_fields, hitems, hfmt, hipk]
  · unfold PageRender.buttonDisabled
    rw [getPage_components]
    simp only [List.headD_cons]
    rw [(paginationButtons_disabled (p.getPage cfg 0).currentPage p.pageCount).1, hcur0]
    rfl
  · unfold PageRender.buttonDisabled
    rw [getPage_components]
    simp only [List.headD_cons]
    rw [(paginationButtons_disabled (p.getPage cfg 0).currentPage p.pageCount).2.1, hcur0]
    rfl
  · unfold PageRender.buttonDisabled
    rw [getPage_components]
    simp only [List.headD_cons]
    rw [(paginationButtons_disabled
      (p.getPage cfg ((p.pageCount : Int) - 1)).currentPage p.pageCount).2.2.1, hcurlast]
    simp only [Option.some.injEq, beq_iff_eq]
    omega
  · unfold PageRender.buttonDisabled
    rw [getPage_components]
    simp only [List.headD_cons]
    rw [(paginationButtons_disabled
      (p.getPage cfg ((p.pageCount : Int) - 1)).currentPage p.pageCount).2.2.2, hcurlast]
    simp only [Option.some.injEq, beq_iff_eq]
    omega

end BotTemplate

namespace BotTemplate

/-- Fixture: a formatter that shows a string item as name and value. -/
def fmtStr : String → EmbedField := fun s => ⟨s, s⟩

/-- Fixture: options asking for 2 items per page. -/
def opts3 : PaginationOptions := { itemsPerPage := some 2 }

/-- Fixture: the controller over the three items `a b c`, 2 per page. -/
def pag3 : Paginator String := createPaginatedEmbed ["a", "b", "c"] fmtStr opts3

/-- Witness for C3 at a concrete input: 3 items, 2 per page ⇒ 2 pages;
`getPage (-5)` clamps to 0, `getPage 7` clamps to 1; boundary controls are
disabled on the boundary pages. -/
theorem pagination_controller_spec_witness :
    pag3.pageCount = 2 ∧
    (pag3.getPage cfg0 (-5)).currentPage = 0 ∧
    (pag3.getPage cfg0 7).currentPage = 1 ∧
    (pag3.getPage cfg0 0).buttonDisabled "first" = some true ∧
    (pag3.getPage cfg0 1).buttonDisabled "last" = some true := by
  have h := pagination_controller_spec cfg0 ["a", "b", "c"] fmtStr opts3 2 pag3
    (by decide) rfl (by simp) rfl
  have hpc : pag3.pageCount = 2 := by rw [h.1]; rfl
  have hlast1 : ((pag3.pageCount : Int) - 1) = 1 := by rw [hpc]; decide
  refine ⟨hpc, h.2.2.1 (-5) (by decide), ?_, h.2.2.2.2.2.2.1, ?_⟩
  · have h7 := h.2.2.2.1 7 (by rw [hpc]; decide)
    rw [h7, hpc]
  · have hl := h.2.2.2.2.2.2.2.2.2
    rw [hlast1] at hl
    exact hl

/-! ## C10 — the controller is stateless -/

/-- Claim C10: The object returned by `createPaginatedEmbed` holds no mutable
state: a `getPage` call leaves the controller — its backing `items` and its
`pageCount` — unchanged, and two calls with equal arguments return equal
payloads.  (The `Paginator` structure has no current-page component at all:
the current page lives only in the rendered page-indicator label and in the
payload just produced.) -/
theorem getPage_stateless (cfg : Config) (p : Paginator α) :
    (∀ n : Int, (p.getPageCall cfg n).2 = p) ∧
    (∀ n : Int, ((p.getPageCall cfg n).2).items = p.items ∧
      ((p.getPageCall cfg n).2).pageCount = p.pageCount) ∧
    (∀ n₁ n₂ : Int, n₁ = n₂ →
      (p.getPageCall cfg n₁).1 = (p.getPageCall cfg n₂).1) :=
  ⟨fun _ => rfl, fun _ => ⟨rfl, rfl⟩, fun _ _ h => by rw [h]⟩

/-- Witness for C10 at a concrete input. -/
theorem getPage_stateless_witness :
    (pag3.getPageCall cfg0 5).2 = pag3 ∧
    (pag3.getPageCall cfg0 1).1 = (pag3.getPageCall cfg0 1).1 :=
  ⟨(getPage_stateless cfg0 pag3).1 5, (getPage_stateless cfg0 pag3).2.2 1 1 rfl⟩

/-! ## C9 — zero items -/

/-- Fixture: a controller over zero items, 5 per page. -/
def pagEmpty : Paginator String := createPaginatedEmbed [] fmtStr { itemsPerPage := some 5 }

/-- Claim C9 (counterexample): With zero items the render of `getPage 0` is
*not* that of a single-page controller: `pageCount` is 0, and since the
`currentPage === pageCount - 1` comparison is `0 === -1`, the next and last
controls stay *enabled* (the claim says all four are disabled). -/
theorem empty_pagination_next_last_enabled :
    pagEmpty.pageCount = 0 ∧
    (pagEmpty.getPage cfg0 0).buttonDisabled "next" = some false ∧
    (pagEmpty.getPage cfg0 0).buttonDisabled "last" = some false := by
  refine ⟨rfl, ?_, ?_⟩ <;> rfl

/-- The resolved `itemsPerPage` is never 0. -/
theorem resolveItemsPerPage_pos (o : Option Nat) : 0 < resolveItemsPerPage o := by
  match o with
  | none => decide
  | some k =>
    by_cases h : k = 0
    · simp [resolveItemsPerPage, h]
    · simp [resolveItemsPerPage, h]
      omega

/-- Claim C9 (amended): For a controller built from zero items, `pageCount = 0`;
`getPage 0` returns without error — the `pageCount − 1 = −1` clamp bound is
guarded, yielding page index 0 — and renders an empty item listing with the
first and prev controls disabled; but the next and last controls remain
enabled (`0 === pageCount - 1` is `0 === -1`), so the controls are not those
of a single-page render. -/
theorem empty_pagination_renders (cfg : Config) (fmt : α → EmbedField)
    (options : PaginationOptions) (p : Paginator α)
    (hp : p = createPaginatedEmbed [] fmt options) :
    p.pageCount = 0 ∧
    (p.getPage cfg 0).currentPage = 0 ∧
    (p.getPage cfg 0).embeds.map Embed.fields = [[]] ∧
    (p.getPage cfg 0).buttonDisabled "first" = some true ∧
    (p.getPage cfg 0).buttonDisabled "prev" = some true ∧
    (p.getPage cfg 0).buttonDisabled "next" = some false ∧
    (p.getPage cfg 0).buttonDisabled "last" = some false := by
  have hk := resolveItemsPerPage_pos options.itemsPerPage
  have hpc : p.pageCount = 0 := by
    rw [hp]
    show (List.length [] + resolveItemsPerPage options.itemsPerPage - 1) /
        resolveItemsPerPage options.itemsPerPage = 0
    rw [Nat.div_eq_of_lt (by simpa using Nat.sub_lt hk Nat.one_pos)]
  have hcur : (p.getPage cfg 0).currentPage = 0 := by
    rw [getPage_currentPage, hpc]
    decide
  have hitems : p.items = [] := by rw [hp]; rfl
  refine ⟨hpc, hcur, ?_, ?_, ?_, ?_, ?_⟩
  · rw [getPage_fields, hitems]
    simp
  · unfold PageRender.buttonDisabled
    rw [getPage_components]
    simp only [List.headD_cons]
    rw [(paginationButtons_disabled (p.getPage cfg 0).currentPage p.pageCount).1, hcur]
    rfl
  · unfold PageRender.buttonDisabled
    rw [getPage_components]
    simp only [List.headD_cons]
    rw [(paginationButtons_disabled (p.getPage cfg 0).currentPage p.pageCount).2.1, hcur]
    rfl
  · unfold PageRender.buttonDisabled
    rw [getPage_components]
    simp only [List.headD_cons]
    rw [(paginationButtons_disabled (p.getPage cfg 0).currentPage p.pageCount).2.2.1,
      hcur, hpc]
    rfl
  · unfold PageRender.buttonDisabled
    rw [getPage_components]
    simp only [List.headD_cons]
    rw [(paginationButtons_disabled (p.getPage cfg 0).currentPage p.pageCount).2.2.2,
      hcur, hpc]
    rfl

/-- Witness for the amended C9 at a concrete input. -/
theorem empty_pagination_renders_witness :
    pagEmpty.pageCount = 0 ∧
    (pagEmpty.getPage cfg0 0).currentPage = 0 ∧
    (pagEmpty.getPage cfg0 0).embeds.map Embed.fields = [[]] ∧
    (pagEmpty.getPage cfg0 0).buttonDisabled "first" = some true ∧
    (pagEmpty.getPage cfg0 0).buttonDisabled "prev" = some true ∧
    (pagEmpty.getPage cfg0 0).buttonDisabled "next" = some false ∧
    (pagEmpty.getPage cfg0 0).buttonDisabled "last" = some false :=
  empty_pagination_renders cfg0 fmtStr { itemsPerPage := some 5 } pagEmpty rfl

end BotTemplate

namespace BotTemplate

/-! ## Decimal digits: `Nat.repr` versus `decChars` -/

/-- For a decimal digit, `Nat.digitChar` yields `'0'`–`'9'`: a digit
character, not `'/'`, whose code point recovers the digit. -/
theorem digitChar_facts : ∀ d, d < 10 →
    (Nat.digitChar d).isDigit = true ∧ (Nat.digitChar d).toNat - 48 = d ∧
    ((Nat.digitChar d) == '/') = false := by decide

theorem decChars_ne_nil (n : Nat) : decChars n ≠ [] := by
  rw [decChars]
  by_cases h : n < 10 <;> simp [h]

theorem decChars_digits (n : Nat) : ∀ c ∈ decChars n, c.isDigit = true := by
  induction n using Nat.strong_induction_on with
  | _ n ih =>
    by_cases h : n < 10
    · rw [decChars, dif_pos h]
      intro c hc
      rw [List.mem_singleton] at hc
      rw [hc]
      exact (digitChar_facts n h).1
    · rw [decChars, dif_neg h]
      intro c hc
      rw [List.mem_append, List.mem_singleton] at hc
      rcases hc with hc | hc
      · exact ih (n / 10) (Nat.div_lt_self (by omega) (by omega)) c hc
      · rw [hc]
        exact (digitChar_facts (n % 10) (Nat.mod_lt n (by omega))).1

/-- Folding the `parseInt` digit step over the decimal digits of `n` recovers
`n` (with the accumulator shifted). -/
theorem decChars_foldl (n : Nat) : ∀ a : Nat,
    (decChars n).foldl (fun m c => m * 10 + (c.toNat - 48)) a
      = a * 10 ^ (decChars n).length + n := by
  induction n using Nat.strong_induction_on with
  | _ n ih =>
    intro a
    by_cases h : n < 10
    · rw [decChars, dif_pos h]
      simp only [List.foldl_cons, List.foldl_nil, List.length_singleton]
      rw [(digitChar_facts n h).2.1]
      ring
    · rw [decChars, dif_neg h]
      simp only [List.foldl_append, List.foldl_cons, List.foldl_nil,
        List.length_append, List.length_singleton]
      rw [ih (n / 10) (Nat.div_lt_self (by omega) (by omega)) a]
      rw [(digitChar_facts (n % 10) (Nat.mod_lt n (by omega))).2.1]
      calc (a * 10 ^ (decChars (n / 10)).length + n / 10) * 10 + n % 10
          = a * (10 ^ (decChars (n / 10)).length * 10) + (10 * (n / 10) + n % 10) := by ring
        _ = a * 10 ^ ((decChars (n / 10)).length + 1) + n := by
            rw [Nat.div_add_mod, pow_succ]

/-- With enough fuel, `Nat.toDigitsCore` produces exactly the decimal digits. -/
theorem toDigitsCore_eq_decChars (n : Nat) : ∀ (f : Nat) (ds : List Char), n < f →
    Nat.toDigitsCore 10 f n ds = decChars n ++ ds := by
  induction n using Nat.strong_induction_on with
  | _ n ih =>
    intro f ds hf
    match f with
    | f + 1 =>
      simp only [Nat.toDigitsCore]
      by_cases h : n < 10
      · have hdiv : n / 10 = 0 := Nat.div_eq_of_lt h
        rw [if_pos hdiv, decChars, dif_pos h]
        simp [Nat.mod_eq_of_lt h]
      · have hdiv : ¬ n / 10 = 0 := by omega
        rw [if_neg hdiv]
        have hlt : n / 10 < n := Nat.div_lt_self (by omega) (by omega)
        rw [ih (n / 10) hlt f (Nat.digitChar (n % 10) :: ds) (by omega)]
        have hdc : decChars n = decChars (n / 10) ++ [Nat.digitChar (n % 10)] := by
          rw [decChars]
          exact dif_neg h
        rw [hdc]
        simp

/-- The decimal rendering of a JavaScript number is the decimal digit list. -/
theorem jsNatToString_data (n : Nat) : (jsNatToString n).data = decChars n := by
  show ((Nat.toDigits 10 n).asString).data = decChars n
  unfold Nat.toDigits
  rw [toDigitsCore_eq_decChars n (n + 1) [] (Nat.lt_succ_self n)]
  simp [List.asString]

/-! ## `extractPaginationInfo` (`interactionCreate.js`) -/

/-- The decimal-prefix semantics of `parseInt(s, 10)` on the strings this
program parses: the value of the leading digit run, `none` (JavaScript `NaN`)
when there is none. -/
def parseIntDec (s : List Char) : Option Nat :=
  let ds := s.takeWhile (fun c => c.isDigit)
  if ds.isEmpty then none
  else some (ds.foldl (fun m c => m * 10 + (c.toNat - 48)) 0)

/-- The result of parsing a `"current/total"` label: `parseInt(currentStr) - 1`
and `parseInt(totalStr)`, each `none` when the part is missing or `NaN`. -/
structure ParsedPagination where
  currentPage : Option Int
  totalPages : Option Nat
deriving DecidableEq, Repr

/-- Model of `extractPaginationInfo(message)` over the message's component rows: find
the `page` indicator button on the first row (absence throws, modelled
`none`), split its label on `'/'` and parse the two parts. -/
def extractPaginationInfo (components : List (List PgButton)) : Option ParsedPagination :=
  match (components.headD []).find? (fun b => b.customId == some "page") with
  | none => none
  | some pageIndicator =>
    let parts := pageIndicator.label.data.splitOn '/'
    some ⟨(parts[0]?.bind parseIntDec).map (fun m => (m : Int) - 1),
          parts[1]?.bind parseIntDec⟩

theorem takeWhile_all (p : Char → Bool) : ∀ l : List Char, (∀ c ∈ l, p c = true) →
    l.takeWhile p = l
  | [], _ => rfl
  | c :: l, h => by
    rw [List.takeWhile_cons, h c (List.mem_cons_self c l), if_pos rfl,
      takeWhile_all p l (fun x hx => h x (List.mem_cons_of_mem c hx))]

theorem parseIntDec_decChars (n : Nat) : parseIntDec (decChars n) = some n := by
  unfold parseIntDec
  rw [takeWhile_all _ _ (decChars_digits n)]
  rw [if_neg (by simpa using decChars_ne_nil n)]
  rw [decChars_foldl n 0]
  simp

theorem splitOn_two_parts (a b : Nat) :
    (decChars a ++ '/' :: decChars b).splitOn '/' = [decChars a, decChars b] := by
  have hnd : ∀ m : Nat, ∀ c ∈ decChars m, ¬ ((c == '/') = true) := by
    intro m c hc hbeq
    have hd := decChars_digits m c hc
    rw [eq_of_beq hbeq] at hd
    simp at hd
  show (decChars a ++ '/' :: decChars b).splitOnP (fun c => c == '/') = _
  rw [List.splitOnP_first (fun c => c == '/') (decChars a) (hnd a) '/' rfl (decChars b)]
  rw [List.splitOnP_eq_single (fun c => c == '/') (decChars b) (hnd b)]

/-- The rendered page-indicator button: label `"current/total"`, disabled. -/
def pageIndicatorButton (c pc : Nat) : PgButton :=
  createButton
    { customId := some "page"
      label := some (jsNatToString (c + 1) ++ "/" ++ jsNatToString pc)
      disabled := true
      style := some ButtonStyle.secondary }

/-- Searching the navigation row for custom id `page` finds the indicator. -/
theorem paginationButtons_find_page (c pc : Nat) :
    (_createPaginationButtons c pc).find? (fun b => b.customId == some "page") =
      some (pageIndicatorButton c pc) := rfl

/-! ## C4 — label round trip -/

/-- Claim C4: For every controller with `pageCount ≥ 1` and every in-range page
index `n`, parsing the page-indicator label produced by `getPage n` via the
dispatcher's `"current/total"` extraction rule (split on `'/'`, parse
integers, subtract 1 from the first) recovers exactly the page index `n` that
was rendered, and the parsed total equals `pageCount`. -/
theorem pagination_label_roundtrip (cfg : Config) (p : Paginator α) (n : Int)
    (hpc : 1 ≤ p.pageCount) (hn0 : 0 ≤ n) (hn : n < (p.pageCount : Int)) :
    extractPaginationInfo (p.getPage cfg n).components =
      some ⟨some n, some p.pageCount⟩ := by
  have hcur : (p.getPage cfg n).currentPage = n.toNat := by
    rw [getPage_currentPage]
    omega
  rw [extractPaginationInfo, getPage_components]
  simp only [List.headD_cons, paginationButtons_find_page, hcur]
  have hlabel : (pageIndicatorButton n.toNat p.pageCount).label
      = jsNatToString (n.toNat + 1) ++ "/" ++ jsNatToString p.pageCount := rfl
  rw [hlabel]
  have hdata : (jsNatToString (n.toNat + 1) ++ "/" ++ jsNatToString p.pageCount).data
      = decChars (n.toNat + 1) ++ '/' :: decChars p.pageCount := by
    simp only [String.data_append, jsNatToString_data]
    rw [List.append_assoc]
    rfl
  rw [hdata, splitOn_two_parts]
  simp [parseIntDec_decChars]
  omega

end BotTemplate

namespace BotTemplate

/-- Witness for C4 at a concrete input: page index 1 of the 2-page controller
renders label `2/2`, which parses back to (1, 2). -/
theorem pagination_label_roundtrip_witness :
    extractPaginationInfo (pag3.getPage cfg0 1).components = some ⟨some 1, some 2⟩ :=
  pagination_label_roundtrip cfg0 pag3 1 (by decide) (by decide) (by decide)

/-! ## Pagination update handler (`src/events/paginationUpdate.js`) -/

/-- A message, as read and edited by the pagination update handler. -/
structure PgMessage where
  id : String
  embeds : List Embed
  components : List (List PgButton)
deriving DecidableEq, Repr

/-- The expired-notice embed built by `handleExpiredPaginatorSafely` from the
message's current first embed (`currentEmbed.title || 'Information'`). -/
def expiredEmbed (current : Embed) : Embed :=
  { title := some (match current.title with
      | some t => if t == "" then "Information" else t
      | none => "Information")
    description := some
      "This paginated content has expired. Please run the command again to view fresh data."
    color := COLORS_ERROR
    footerText := some "Pagination expired due to bot restart or timeout"
    hasTimestamp := false
    fields := [] }

/-- Model of `handleExpiredPaginatorSafely(interaction, message)`: when the message
still has an embed, replace the content with the expired notice and remove
every component row; otherwise the message is left untouched. -/
def handleExpiredPaginatorSafely (msg : PgMessage) : PgMessage :=
  match msg.embeds.head? with
  | some current => { msg with embeds := [expiredEmbed current], components := [] }
  | none => msg

/-- The `paginationUpdate` event handler (`execute`) as a message transformer:
messages without components are left alone; a registry miss takes the expired
fallback; a hit renders `getPage(newPage)` and edits the message in place.
The surrounding `try`/`catch` only logs, so the model is total — no error
escapes the handler. -/
def paginationUpdateExecute (cfg : Config) (paginators : List (String × Paginator α))
    (msg : PgMessage) (newPage : Int) : PgMessage :=
  if msg.components.isEmpty then msg
  else
    match lookupEntry paginators ("paginator:" ++ msg.id) with
    | none => handleExpiredPaginatorSafely msg
    | some p =>
      let pageContent := p.getPage cfg newPage
      { msg with embeds := pageContent.embeds, components := pageContent.components }

/-! ## C6 — graceful expired fallback on registry miss -/

/-- Fixture: a message carrying a button row but no embed. -/
def msgNoEmbed : PgMessage :=
  ⟨"m1", [], [[createButton { customId := some "next" }]]⟩

/-- Claim C6 (counterexample): A `paginationUpdate` event whose registry lookup
misses does *not* always strip the components: on a message that has a
component row but no embed, `handleExpiredPaginatorSafely` finds no current
embed and leaves the message untouched — the content is not replaced and one
interactive row remains. -/
theorem pagination_expired_no_embed_untouched :
    paginationUpdateExecute cfg0 ([] : List (String × Paginator String)) msgNoEmbed 1
      = msgNoEmbed ∧
    (paginationUpdateExecute cfg0 ([] : List (String × Paginator String)) msgNoEmbed 1).components
      ≠ [] := by
  refine ⟨rfl, ?_⟩
  decide

/-- Claim C6 (amended): For every `paginationUpdate` event whose message
identifier has no controller in the registry, provided the message still has
a nonempty component list and at least one embed (as any live paginated
message does), the handler raises no error: the message content is replaced
with the expired-state notice and every interactive component is removed,
leaving zero controls.  (When the message has no components, or no embed, the
handler returns with the message unmodified — also without error.) -/
theorem pagination_expired_fallback (cfg : Config)
    (paginators : List (String × Paginator α)) (msg : PgMessage) (e : Embed)
    (newPage : Int)
    (hmiss : lookupEntry paginators ("paginator:" ++ msg.id) = none)
    (hcomp : msg.components.isEmpty = false)
    (hembed : msg.embeds.head? = some e) :
    paginationUpdateExecute cfg paginators msg newPage
      = { msg with embeds := [expiredEmbed e], components := [] } ∧
    (paginationUpdateExecute cfg paginators msg newPage).components = [] ∧
    (paginationUpdateExecute cfg paginators msg newPage).embeds.map Embed.description
      = [some "This paginated content has expired. Please run the command again to view fresh data."] := by
  have h : paginationUpdateExecute cfg paginators msg newPage
      = { msg with embeds := [expiredEmbed e], components := [] } := by
    unfold paginationUpdateExecute
    rw [hcomp, hmiss]
    unfold handleExpiredPaginatorSafely
    rw [hembed]
    simp
  refine ⟨h, ?_, ?_⟩ <;> rw [h] <;> rfl

/-- Fixture: a live-looking paginated message (one embed, one button row)
whose registry entry is absent. -/
def orphanEmbed : Embed :=
  { title := some "Results"
    description := some "Showing 1-2 of 3 items"
    color := COLORS_PRIMARY
    footerText := some "Page 1/2"
    hasTimestamp := true
    fields := [] }

def msgOrphan : PgMessage := ⟨"m2", [orphanEmbed], [_createPaginationButtons 0 2]⟩

/-- Witness for the amended C6 at a concrete input. -/
theorem pagination_expired_fallback_witness :
    paginationUpdateExecute cfg0 ([] : List (String × Paginator String)) msgOrphan 1
      = ⟨"m2", [expiredEmbed orphanEmbed], []⟩ ∧
    (paginationUpdateExecute cfg0 ([] : List (String × Paginator String)) msgOrphan 1).components
      = [] := by
  have h := pagination_expired_fallback cfg0 ([] : List (String × Paginator String))
    msgOrphan orphanEmbed 1 rfl rfl rfl
  exact ⟨h.1, h.2.1⟩

/-! ## Paginated-message sender (`src/utils/paginationUtils.js`) -/

/-- JavaScript property access `paginator.register` on the object returned by
`createPaginatedEmbed`.  The source returns only `{ getPage, pageCount }`, so
the property is `undefined` for every controller. -/
def Paginator.registerMethod (_p : Paginator α) :
    Option (List (String × Paginator α) → String → List (String × Paginator α)) := none

/-- Model of `sendPaginatedMessage(interaction, items, formatItemFn, options)`: builds
the controller (itemsPerPage defaulted from `PAGINATION.ITEMS_PER_PAGE = 5`),
renders page 0, sends the reply (modelled as succeeding and yielding the
message id `sentMessageId`), then calls `paginator.register(client, id)`.
Calling an `undefined` property throws a `TypeError`; the surrounding `catch`
logs and re-throws, so the function rejects and the registry update never
happens.  On the (unreachable) success path it would return the sent message
id and the updated registry. -/
def sendPaginatedMessage (cfg : Config) (registry : List (String × Paginator α))
    (items : List α) (formatItemFn : α → EmbedField) (options : PaginationOptions)
    (sentMessageId : String) : Except Unit (String × List (String × Paginator α)) :=
  let paginationOptions :=
    { options with itemsPerPage := some (resolveItemsPerPage options.itemsPerPage) }
  let paginator := createPaginatedEmbed items formatItemFn paginationOptions
  let _initialPage := paginator.getPage cfg 0
  match paginator.registerMethod with
  | some reg => .ok (sentMessageId, reg registry sentMessageId)
  | none => .error ()

/-! ## C5 — registration after sending -/

/-- Claim C5: The claim says the controller is registered into the client's
`paginators` map under the sent message's id and the message returned; in the
source `createPaginatedEmbed` returns an object with no `register` method, so
`paginator.register(interaction.client, sentMessage.id)` throws a `TypeError`
after the message is sent: `sendPaginatedMessage` always rejects, nothing is
ever written to the registry, and the sent message is never returned to the
caller. -/
theorem sendPaginatedMessage_always_throws (cfg : Config)
    (registry : List (String × Paginator α)) (items : List α)
    (formatItemFn : α → EmbedField) (options : PaginationOptions)
    (sentMessageId : String) :
    sendPaginatedMessage cfg registry items formatItemFn options sentMessageId
      = .error () := rfl

end BotTemplate
